import Mathlib

/-!
Shallow embedding of the pure logic of `SceneManager.cpp` and `ViewManager.cpp`
(Comp-Graphic-Final, a small OpenGL scene renderer).

Floats are modelled as exact rationals (`ℚ`) where only registry bookkeeping,
comparisons and additions occur, and as reals (`ℝ`) where trigonometry and
matrix algebra are involved (the transform builder and the projection math).
The OpenGL / GLFW / stb calls are external effects: the embedding keeps the
data that flows through them (decoded image descriptors, texture ids, shader
uniform values) and drops the I/O.
-/

namespace SceneMgr

/-- One entry of the texture registry `m_textureIDs`: a GPU texture handle
(`ID`, from `glGenTextures`) together with its lookup `tag`. -/
structure TexEntry where
  ID : Nat
  tag : String
deriving DecidableEq, Repr

/-- The texture-registry part of `SceneManager`'s state: the array
`m_textureIDs` filled up to `m_loadedTextures`, modelled as the list of
registered entries in load order (`m_loadedTextures` is its length). -/
structure TexState where
  textures : List TexEntry
deriving DecidableEq, Repr

/-- The result of a successful `stbi_load`: width, height and channel count of
the decoded image (the pixel buffer itself only flows into `glTexImage2D`). -/
structure ImageInfo where
  width : Nat
  height : Nat
  channels : Nat
deriving DecidableEq, Repr

/-- `SceneManager::CreateGLTexture` (SceneManager.cpp:66-130), with the
external decode represented by its result: `none` when `stbi_load` fails,
`some img` when it succeeds; `textureID` is the fresh handle produced by
`glGenTextures`.  On a decode failure it returns `false` with the registry
untouched; on 3 or 4 channels it uploads, appends the `(ID, tag)` entry at
index `m_loadedTextures` and increments the count (returning `true`); on any
other channel count it logs and returns `false` before registering. -/
def CreateGLTexture (st : TexState) (decoded : Option ImageInfo)
    (textureID : Nat) (tag : String) : Bool × TexState :=
  match decoded with
  | some img =>
    if img.channels = 3 then
      (true, ⟨st.textures ++ [⟨textureID, tag⟩]⟩)
    else if img.channels = 4 then
      (true, ⟨st.textures ++ [⟨textureID, tag⟩]⟩)
    else
      (false, st)
  | none => (false, st)

/-- `SceneManager::BindGLTextures` (SceneManager.cpp:138-146): for each
`i < m_loadedTextures` it activates texture unit `GL_TEXTURE0 + i` and binds
`m_textureIDs[i].ID`; modelled as the ordered list of (slot, handle) pairs
the loop issues. -/
def BindGLTextures (st : TexState) : List (Nat × Nat) :=
  st.textures.enum.map fun p => (p.1, p.2.ID)

/-- The scanning loop of `SceneManager::FindTextureID`
(SceneManager.cpp:168-186): walk the registry from index 0, stop at the first
entry whose tag compares equal, return its handle, or -1 when the loop runs
off the end. -/
def findIDLoop : List TexEntry → String → Int
  | [], _ => -1
  | e :: rest, tag => if e.tag == tag then (e.ID : Int) else findIDLoop rest tag

/-- `SceneManager::FindTextureID` (SceneManager.cpp:168-186). -/
def FindTextureID (st : TexState) (tag : String) : Int :=
  findIDLoop st.textures tag

/-- The scanning loop of `SceneManager::FindTextureSlot`
(SceneManager.cpp:194-212): same scan, but the first matching index itself is
the result; `k` is the running index. -/
def findSlotLoop : List TexEntry → String → Nat → Int
  | [], _, _ => -1
  | e :: rest, tag, k => if e.tag == tag then (k : Int) else findSlotLoop rest tag (k + 1)

/-- `SceneManager::FindTextureSlot` (SceneManager.cpp:194-212). -/
def FindTextureSlot (st : TexState) (tag : String) : Int :=
  findSlotLoop st.textures tag 0

/-- A whole load sequence: each element is (decoded image, fresh texture id,
tag), fed through `CreateGLTexture` in order, keeping the final registry. -/
def loadAll (st : TexState) (loads : List (ImageInfo × Nat × String)) : TexState :=
  loads.foldl (fun s l => (CreateGLTexture s (some l.1) l.2.1 l.2.2).2) st

/-- `SceneManager::OBJECT_MATERIAL`: reflectance record stored in
`m_objectMaterials`. -/
structure OBJECT_MATERIAL where
  tag : String
  diffuseColor : ℚ × ℚ × ℚ
  specularColor : ℚ × ℚ × ℚ
  shininess : ℚ
deriving DecidableEq, Repr

/-- The scanning loop of `SceneManager::FindMaterial`
(SceneManager.cpp:229-242): walk the list, and at the first entry whose tag
matches copy its diffuse/specular/shininess into the output parameter; when
no entry matches, the output parameter is left as it came in. -/
def findMatLoop : List OBJECT_MATERIAL → String → OBJECT_MATERIAL → OBJECT_MATERIAL
  | [], _, m => m
  | e :: rest, tag, m =>
    if e.tag == tag then
      { m with diffuseColor := e.diffuseColor, specularColor := e.specularColor,
               shininess := e.shininess }
    else
      findMatLoop rest tag m

/-- `SceneManager::FindMaterial` (SceneManager.cpp:220-245): returns `false`
straight away when the registry is empty; otherwise it runs the scan on the
by-reference output `material` and returns `true` unconditionally — the
return value records only that the registry was non-empty, not that the tag
was found. -/
def FindMaterial (mats : List OBJECT_MATERIAL) (tag : String)
    (material : OBJECT_MATERIAL) : Bool × OBJECT_MATERIAL :=
  if mats.length = 0 then
    (false, material)
  else
    (true, findMatLoop mats tag material)

/-- The single material defined by `SceneManager::DefineObjectMaterials`
(SceneManager.cpp:372-385). -/
def defaultMaterial : OBJECT_MATERIAL :=
  { tag := "default"
    diffuseColor := (6/10, 6/10, 5/10)
    specularColor := (9/10, 9/10, 8/10)
    shininess := 64 }

/-- The shader-uniform sink as seen from `SetShaderColor` / `SetShaderTexture`:
the three uniforms those two methods write (`bUseTexture`, `objectColor`,
`objectTexture`).  The model assumes `m_pShaderManager != NULL`, the only case
in which either method writes anything. -/
structure Shader where
  bUseTexture : Bool
  objectColor : ℚ × ℚ × ℚ × ℚ
  objectTexture : Int
deriving DecidableEq, Repr

/-- `SceneManager::SetShaderColor` (SceneManager.cpp:291-310): sets
`bUseTexture` to false, then writes the RGBA color to `objectColor`. -/
def SetShaderColor (r g b a : ℚ) (sh : Shader) : Shader :=
  { sh with bUseTexture := false, objectColor := (r, g, b, a) }

/-- `SceneManager::SetShaderTexture` (SceneManager.cpp:318-329): sets
`bUseTexture` to true, then writes `FindTextureSlot(tag)` — which may be the
-1 sentinel — as the `objectTexture` sampler index. -/
def SetShaderTexture (texs : TexState) (tag : String) (sh : Shader) : Shader :=
  { sh with bUseTexture := true, objectTexture := FindTextureSlot texs tag }

/-- One shader-state-mutating call of the render sequence, as far as the
`bUseTexture` flag is concerned: a `SetShaderColor` or a `SetShaderTexture`. -/
inductive DrawOp where
  | setColor (r g b a : ℚ)
  | setTexture (tag : String)
deriving DecidableEq, Repr

/-- Run one `DrawOp` against the shader state. -/
def applyOp (texs : TexState) (sh : Shader) : DrawOp → Shader
  | .setColor r g b a => SetShaderColor r g b a sh
  | .setTexture tag => SetShaderTexture texs tag sh

/-- Run a sequence of `DrawOp`s left to right (the last-write-wins uniform
model of the render loop). -/
def runOps (texs : TexState) (sh : Shader) (ops : List DrawOp) : Shader :=
  ops.foldl (applyOp texs) sh

/-- Whether a `DrawOp` is a `SetShaderTexture` call (the value it leaves in
`bUseTexture`). -/
def opUsesTexture : DrawOp → Bool
  | .setColor _ _ _ _ => false
  | .setTexture _ => true

/-- 4×4 real matrices, the model of `glm::mat4`. -/
abbrev Mat4 := Matrix (Fin 4) (Fin 4) ℝ

/-- `glm::radians`: degrees to radians. -/
noncomputable def radians (d : ℝ) : ℝ := d * (Real.pi / 180)

/-- `glm::scale(v)`: the diagonal scaling matrix diag(x, y, z, 1). -/
def glmScale (v : ℝ × ℝ × ℝ) : Mat4 :=
  Matrix.diagonal ![v.1, v.2.1, v.2.2, 1]

/-- `glm::translate(v)`: identity with the translation vector in the last
column. -/
def glmTranslate (v : ℝ × ℝ × ℝ) : Mat4 :=
  Matrix.of fun i j =>
    if i = j then 1 else if j = 3 then ![v.1, v.2.1, v.2.2, 0] i else 0

/-- `glm::rotate(θ, vec3(1,0,0))`: rotation about the X axis. -/
noncomputable def glmRotateX (θ : ℝ) : Mat4 :=
  !![1, 0, 0, 0;
     0, Real.cos θ, -(Real.sin θ), 0;
     0, Real.sin θ, Real.cos θ, 0;
     0, 0, 0, 1]

/-- `glm::rotate(θ, vec3(0,1,0))`: rotation about the Y axis. -/
noncomputable def glmRotateY (θ : ℝ) : Mat4 :=
  !![Real.cos θ, 0, Real.sin θ, 0;
     0, 1, 0, 0;
     -(Real.sin θ), 0, Real.cos θ, 0;
     0, 0, 0, 1]

/-- `glm::rotate(θ, vec3(0,0,1))`: rotation about the Z axis. -/
noncomputable def glmRotateZ (θ : ℝ) : Mat4 :=
  !![Real.cos θ, -(Real.sin θ), 0, 0;
     Real.sin θ, Real.cos θ, 0, 0;
     0, 0, 1, 0;
     0, 0, 0, 1]

/-- `SceneManager::SetTransformations` (SceneManager.cpp:253-283): builds
`modelView = translation * rotationZ * rotationY * rotationX * scale` from
the scale vector, the three rotation angles in degrees, and the position
vector, and pushes it as the `model` uniform; modelled as the matrix pushed. -/
noncomputable def SetTransformations (scaleXYZ : ℝ × ℝ × ℝ)
    (XrotationDegrees YrotationDegrees ZrotationDegrees : ℝ)
    (positionXYZ : ℝ × ℝ × ℝ) : Mat4 :=
  glmTranslate positionXYZ
    * glmRotateZ (radians ZrotationDegrees)
    * glmRotateY (radians YrotationDegrees)
    * glmRotateX (radians XrotationDegrees)
    * glmScale scaleXYZ

end SceneMgr

namespace ViewMgr

/-- Fixed window width (ViewManager.cpp:17). -/
def WINDOW_WIDTH : ℕ := 1000

/-- Fixed window height (ViewManager.cpp:18). -/
def WINDOW_HEIGHT : ℕ := 800

/-- The camera fields `PrepareSceneView` reads or writes:
its `Front` vector and its `Zoom` (vertical field of view in degrees). -/
structure CameraVM where
  front : ℝ × ℝ × ℝ
  zoom : ℝ

/-- The projection matrix pushed each frame, kept as the call the code makes:
either `glm::ortho(left, right, bottom, top, znear, zfar)` or
`glm::perspective(fovyRadians, aspect, znear, zfar)`. -/
inductive Projection where
  | ortho (left right bottom top znear zfar : ℝ)
  | persp (fovyRadians aspect znear zfar : ℝ)

/-- The camera state built by the `ViewManager` constructor
(ViewManager.cpp:41-46): `Front = (0, -0.5, -2)`, `Zoom = 80`. -/
noncomputable def initialCamera : CameraVM :=
  { front := (0, -(1/2), -2), zoom := 80 }

/-- The projection-and-camera part of `ViewManager::PrepareSceneView`
(ViewManager.cpp:144-156), as a function of the current projection mode flag
`bOrthographicProjection` and camera state.  In orthographic mode it builds
`glm::ortho(-10, 10, -10*HEIGHT/WIDTH, 10*HEIGHT/WIDTH, 0.1, 100)` and
overwrites `Front` with `(0, -1, -1)`; in perspective mode it builds
`glm::perspective(radians(Zoom), WIDTH/HEIGHT, 0.1, 100)` and leaves the
camera untouched. -/
noncomputable def PrepareSceneView (orthoMode : Bool) (cam : CameraVM) :
    Projection × CameraVM :=
  if orthoMode then
    let s : ℝ := 10
    (Projection.ortho (-s) s (-s * (WINDOW_HEIGHT : ℝ) / (WINDOW_WIDTH : ℝ))
       (s * (WINDOW_HEIGHT : ℝ) / (WINDOW_WIDTH : ℝ)) (1/10) 100,
     { cam with front := (0, -1, -1) })
  else
    (Projection.persp (SceneMgr.radians cam.zoom)
       ((WINDOW_WIDTH : ℝ) / (WINDOW_HEIGHT : ℝ)) (1/10) 100,
     cam)

/-- The pointer-tracking globals of ViewManager.cpp: `gLastX`, `gLastY`,
`gFirstMouse`. -/
structure MouseState where
  lastX : ℚ
  lastY : ℚ
  firstMouse : Bool
deriving DecidableEq, Repr

/-- Their initial values (ViewManager.cpp:24-26): window centre, first-event
flag set. -/
def initialMouseState : MouseState :=
  { lastX := 500, lastY := 400, firstMouse := true }

/-- `ViewManager::Mouse_Position_Callback` (ViewManager.cpp:82-97): on the
first event, seed `gLastX`/`gLastY` with the event position and clear
`gFirstMouse`; then compute `xOffset = x - gLastX`, `yOffset = gLastY - y`
(Y inverted), store the event position as the new last position, and pass the
offset to `Camera::ProcessMouseMovement` (external).  Modelled as the new
global state together with the offset pair handed to the camera. -/
def Mouse_Position_Callback (st : MouseState) (xMousePos yMousePos : ℚ) :
    MouseState × (ℚ × ℚ) :=
  let st1 := if st.firstMouse then
      { lastX := xMousePos, lastY := yMousePos, firstMouse := false }
    else st
  let xOffset := xMousePos - st1.lastX
  let yOffset := st1.lastY - yMousePos
  ({ lastX := xMousePos, lastY := yMousePos, firstMouse := st1.firstMouse },
   (xOffset, yOffset))

/-- `Mouse_Scroll_Callback` (ViewManager.cpp:100-105): add the vertical scroll
delta to the camera's `MovementSpeed`, then clamp the result up to 1.0 if it
fell below; modelled on the speed value alone. -/
def Mouse_Scroll_Callback (speed yoffset : ℚ) : ℚ :=
  let s := speed + yoffset
  if s < 1 then 1 else s

end ViewMgr

namespace SceneMgr

/-- The `FindTextureID` scan misses every entry when the tag is unregistered. -/
lemma findIDLoop_not_found : ∀ (es : List TexEntry) (tag : String),
    tag ∉ es.map TexEntry.tag → findIDLoop es tag = -1
  | [], _, _ => rfl
  | e :: rest, tag, h => by
    have h1 : ¬ e.tag = tag := fun hh => h (by simp [hh])
    have h2 : tag ∉ rest.map TexEntry.tag := fun hh => h (by simp [hh])
    simp [findIDLoop, h1, findIDLoop_not_found rest tag h2]

/-- The `FindTextureSlot` scan misses every entry when the tag is
unregistered, for any starting index. -/
lemma findSlotLoop_not_found : ∀ (es : List TexEntry) (tag : String) (k : ℕ),
    tag ∉ es.map TexEntry.tag → findSlotLoop es tag k = -1
  | [], _, _, _ => rfl
  | e :: rest, tag, k, h => by
    have h1 : ¬ e.tag = tag := fun hh => h (by simp [hh])
    have h2 : tag ∉ rest.map TexEntry.tag := fun hh => h (by simp [hh])
    simp [findSlotLoop, h1, findSlotLoop_not_found rest tag (k + 1) h2]

/-- The `FindMaterial` scan leaves the output parameter untouched when the
tag is unregistered. -/
lemma findMatLoop_not_found : ∀ (mats : List OBJECT_MATERIAL) (tag : String)
    (m : OBJECT_MATERIAL), tag ∉ mats.map OBJECT_MATERIAL.tag →
    findMatLoop mats tag m = m
  | [], _, _, _ => rfl
  | e :: rest, tag, m, h => by
    have h1 : ¬ e.tag = tag := fun hh => h (by simp [hh])
    have h2 : tag ∉ rest.map OBJECT_MATERIAL.tag := fun hh => h (by simp [hh])
    simp [findMatLoop, h1, findMatLoop_not_found rest tag m h2]

/-- C1 (corrected): on a tag with no matching registry entry, `FindMaterial`
leaves its output material parameter untouched, but its boolean result is
`true` exactly when the registry is non-empty — it reports "not found"
(`false`) only for an empty registry, not for a non-empty registry lacking
the tag. -/
theorem FindMaterial_unregistered_tag (mats : List OBJECT_MATERIAL)
    (tag : String) (m : OBJECT_MATERIAL)
    (h : tag ∉ mats.map OBJECT_MATERIAL.tag) :
    (FindMaterial mats tag m).2 = m ∧
    ((FindMaterial mats tag m).1 = true ↔ mats ≠ []) := by
  cases mats with
  | nil => simp [FindMaterial]
  | cons e rest =>
    have hloop := findMatLoop_not_found (e :: rest) tag m h
    simp [FindMaterial, hloop]

/-- C1 witness: the amended statement applied to a registry holding exactly
the scene's default material and the unregistered tag "missing". -/
theorem FindMaterial_unregistered_tag_witness :
    ("missing" ∉ [defaultMaterial].map OBJECT_MATERIAL.tag) ∧
    ((FindMaterial [defaultMaterial] "missing"
        (OBJECT_MATERIAL.mk "none" (0, 0, 0) (0, 0, 0) 0)).2 =
      OBJECT_MATERIAL.mk "none" (0, 0, 0) (0, 0, 0) 0 ∧
     ((FindMaterial [defaultMaterial] "missing"
        (OBJECT_MATERIAL.mk "none" (0, 0, 0) (0, 0, 0) 0)).1 = true ↔
       [defaultMaterial] ≠ [])) :=
  ⟨by decide,
   FindMaterial_unregistered_tag [defaultMaterial] "missing"
     (OBJECT_MATERIAL.mk "none" (0, 0, 0) (0, 0, 0) 0) (by decide)⟩

/-- C1 counterexample: with the non-empty registry `[defaultMaterial]` and
the unregistered tag "missing", `FindMaterial` returns `true`, not the
`false` "not found" signal the claim asserts for every unregistered tag. -/
theorem FindMaterial_unregistered_tag_counterexample :
    (FindMaterial [defaultMaterial] "missing"
      (OBJECT_MATERIAL.mk "none" (0, 0, 0) (0, 0, 0) 0)).1 = true := by
  rfl

/-- C3: when the decoded image has a channel count other than 3 or 4,
`CreateGLTexture` returns `false` and the registry — both the count of
registered textures and the tag-to-slot table — is exactly as before. -/
theorem CreateGLTexture_unsupported_channels (st : TexState) (img : ImageInfo)
    (textureID : Nat) (tag : String)
    (h3 : img.channels ≠ 3) (h4 : img.channels ≠ 4) :
    CreateGLTexture st (some img) textureID tag = (false, st) := by
  simp [CreateGLTexture, h3, h4]

/-- C3 witness: a successfully decoded 2-channel image is rejected and the
registry (here holding one texture) is unchanged. -/
theorem CreateGLTexture_unsupported_channels_witness :
    ((2 : Nat) ≠ 3 ∧ (2 : Nat) ≠ 4) ∧
    CreateGLTexture ⟨[⟨7, "grass"⟩]⟩ (some ⟨64, 64, 2⟩) 9 "gray" =
      (false, ⟨[⟨7, "grass"⟩]⟩) :=
  ⟨⟨by decide, by decide⟩,
   CreateGLTexture_unsupported_channels ⟨[⟨7, "grass"⟩]⟩ ⟨64, 64, 2⟩ 9 "gray"
     (by decide) (by decide)⟩

/-- C8: both texture lookups on an unregistered tag return the -1 sentinel,
for any registry contents (including the empty registry); both are pure
scans over the registry, so no state is mutated and no abort can occur. -/
theorem FindTexture_unregistered_sentinel (st : TexState) (tag : String)
    (h : tag ∉ st.textures.map TexEntry.tag) :
    FindTextureID st tag = -1 ∧ FindTextureSlot st tag = -1 :=
  ⟨findIDLoop_not_found st.textures tag h,
   findSlotLoop_not_found st.textures tag 0 h⟩

/-- C8 witness: a two-texture registry and the unregistered tag "roof". -/
theorem FindTexture_unregistered_sentinel_witness :
    ("roof" ∉ (TexState.mk [⟨11, "grass"⟩, ⟨22, "sky"⟩]).textures.map
        TexEntry.tag) ∧
    (FindTextureID ⟨[⟨11, "grass"⟩, ⟨22, "sky"⟩]⟩ "roof" = -1 ∧
     FindTextureSlot ⟨[⟨11, "grass"⟩, ⟨22, "sky"⟩]⟩ "roof" = -1) :=
  ⟨by decide,
   FindTexture_unregistered_sentinel ⟨[⟨11, "grass"⟩, ⟨22, "sky"⟩]⟩ "roof"
     (by decide)⟩

/-- C6: `SetShaderColor` always clears `bUseTexture` before writing the
color, `SetShaderTexture` always sets it back, and over any sequence of such
calls the flag before a draw is determined exactly by whichever call came
last. -/
theorem shader_color_texture_exclusive (texs : TexState) (sh : Shader) :
    (∀ r g b a : ℚ, (SetShaderColor r g b a sh).bUseTexture = false ∧
        (SetShaderColor r g b a sh).objectColor = (r, g, b, a)) ∧
    (∀ tag, (SetShaderTexture texs tag sh).bUseTexture = true) ∧
    (∀ (ops : List DrawOp) (op : DrawOp),
        (runOps texs sh (ops ++ [op])).bUseTexture = opUsesTexture op) := by
  refine ⟨fun r g b a => ⟨rfl, rfl⟩, fun tag => rfl, fun ops op => ?_⟩
  rw [runOps, List.foldl_append]
  cases op <;> rfl

/-- C10: `SetShaderTexture` on an unregistered tag still enables texture
sampling (`bUseTexture := true`) and writes the -1 not-found sentinel from
`FindTextureSlot` as the `objectTexture` sampler index. -/
theorem SetShaderTexture_unregistered (texs : TexState) (tag : String)
    (sh : Shader) (h : tag ∉ texs.textures.map TexEntry.tag) :
    (SetShaderTexture texs tag sh).bUseTexture = true ∧
    (SetShaderTexture texs tag sh).objectTexture = -1 :=
  ⟨rfl, by
    show FindTextureSlot texs tag = -1
    exact findSlotLoop_not_found texs.textures tag 0 h⟩

/-- C10 witness: a one-texture registry, the unregistered tag "marble", and a
shader state that previously had texturing disabled. -/
theorem SetShaderTexture_unregistered_witness :
    ("marble" ∉ (TexState.mk [⟨11, "grass"⟩]).textures.map TexEntry.tag) ∧
    ((SetShaderTexture ⟨[⟨11, "grass"⟩]⟩ "marble"
        ⟨false, (1, 1, 1, 1), 0⟩).bUseTexture = true ∧
     (SetShaderTexture ⟨[⟨11, "grass"⟩]⟩ "marble"
        ⟨false, (1, 1, 1, 1), 0⟩).objectTexture = -1) :=
  ⟨by decide,
   SetShaderTexture_unregistered ⟨[⟨11, "grass"⟩]⟩ "marble"
     ⟨false, (1, 1, 1, 1), 0⟩ (by decide)⟩

end SceneMgr

namespace ViewMgr

/-- C9: the first pointer event after controller creation only seeds the
last-position reference and hands the camera a zero offset; every later event
hands the camera `(x - lastX, lastY - y)` — the Y component inverted — and
stores the event position as the new last position. -/
theorem mouse_callback_seeding (x y x2 y2 : ℚ) :
    Mouse_Position_Callback initialMouseState x y =
      (⟨x, y, false⟩, (0, 0)) ∧
    Mouse_Position_Callback ⟨x, y, false⟩ x2 y2 =
      (⟨x2, y2, false⟩, (x2 - x, y - y2)) := by
  constructor
  · simp [Mouse_Position_Callback, initialMouseState]
  · simp [Mouse_Position_Callback]

/-- C7: the movement speed is at least 1 after every scroll callback, and
with a fixed negative delta it reaches exactly 1 after enough invocations
(`speed + n·δ ≤ 1`) and stays there. -/
theorem scroll_speed_clamped :
    (∀ speed yoffset : ℚ, 1 ≤ Mouse_Scroll_Callback speed yoffset) ∧
    (∀ (speed δ : ℚ) (n : ℕ), δ < 0 → speed + n * δ ≤ 1 → 1 ≤ n →
      (fun s => Mouse_Scroll_Callback s δ)^[n] speed = 1) := by
  constructor
  · intro speed yoffset
    simp only [Mouse_Scroll_Callback]
    split
    · exact le_refl 1
    · next h => linarith [not_lt.mp h]
  · intro speed δ n hδ
    induction n generalizing speed with
    | zero => intro _ h1; exact absurd h1 (by norm_num)
    | succ n ih =>
      intro hle _
      rw [Function.iterate_succ_apply]
      rcases Nat.eq_zero_or_pos n with hn | hn
      · subst hn
        simp only [Function.iterate_zero, id_eq]
        have hsum : speed + δ ≤ 1 := by push_cast at hle; linarith
        simp only [Mouse_Scroll_Callback]
        split
        · rfl
        · next h => linarith [not_lt.mp h]
      · apply ih
        · simp only [Mouse_Scroll_Callback]
          split
          · have hnδ : (n : ℚ) * δ ≤ 0 :=
              mul_nonpos_of_nonneg_of_nonpos (Nat.cast_nonneg n) (le_of_lt hδ)
            linarith
          · push_cast at hle
            linarith
        · exact hn

/-- Concrete arithmetic fact used by the C7 witness: 5 + 3·(-2) ≤ 1. -/
lemma scroll_witness_arith : (5 : ℚ) + ((3 : ℕ) : ℚ) * (-2) ≤ 1 := by
  norm_num

/-- C7 witness: starting at speed 5 with scroll delta -2, every single
callback result is ≥ 1, and three callbacks reach exactly 1. -/
theorem scroll_speed_clamped_witness :
    ((1 : ℚ) ≤ Mouse_Scroll_Callback 5 (-2)) ∧
    ((-2 : ℚ) < 0 ∧ (5 : ℚ) + ((3 : ℕ) : ℚ) * (-2) ≤ 1 ∧ 1 ≤ (3 : ℕ)) ∧
    ((fun s => Mouse_Scroll_Callback s (-2))^[3] (5 : ℚ) = 1) :=
  ⟨scroll_speed_clamped.1 5 (-2),
   ⟨by decide, scroll_witness_arith, by decide⟩,
   scroll_speed_clamped.2 5 (-2) 3 (by decide) scroll_witness_arith (by decide)⟩

end ViewMgr

namespace ViewMgr

/-- C2 (amended): in orthographic mode the per-frame projection is
`glm::ortho` with left/right ±10 unscaled, top/bottom ±10 scaled by
height/width = 800/1000 (i.e. ±8, not ±10·1.25), near/far 0.1/100, and the
camera's front vector is overwritten with the fixed downward-forward
`(0, -1, -1)`; in perspective mode the projection is `glm::perspective` with
vertical field of view `radians(Zoom)`, aspect 1000/800 = 1.25, and the same
near/far planes, leaving the camera untouched. -/
theorem projection_mode_bounds (cam : CameraVM) :
    PrepareSceneView true cam =
      (Projection.ortho (-10) 10 (-8) 8 (1/10) 100,
       { cam with front := (0, -1, -1) }) ∧
    PrepareSceneView false cam =
      (Projection.persp (SceneMgr.radians cam.zoom) (5/4) (1/10) 100, cam) := by
  constructor
  · simp only [PrepareSceneView, if_true, WINDOW_WIDTH, WINDOW_HEIGHT]
    norm_num
  · simp only [PrepareSceneView, if_false, WINDOW_WIDTH, WINDOW_HEIGHT]
    norm_num

/-- C2 counterexample: with the constructor's camera state, the orthographic
projection actually issued has bottom/top ±8, not the ±10·(5/4) = ±12.5 the
claim's aspect-ratio-1.25 scaling asserts. -/
theorem projection_mode_bounds_counterexample :
    (PrepareSceneView true initialCamera).1 ≠
      Projection.ortho (-10) 10 (-(10 * (5/4))) (10 * (5/4)) (1/10) 100 := by
  intro h
  have heq : (PrepareSceneView true initialCamera).1 =
      Projection.ortho (-10) 10 (-8) 8 (1/10) 100 := by
    simp only [PrepareSceneView, if_true, WINDOW_WIDTH, WINDOW_HEIGHT]
    norm_num
  rw [heq] at h
  simp only [Projection.ortho.injEq] at h
  norm_num at h

end ViewMgr

namespace SceneMgr

/-- `glm::radians(0) = 0`. -/
lemma radians_zero : radians 0 = 0 := by
  simp [radians]

/-- Unit scale gives the identity matrix. -/
lemma glmScale_one : glmScale (1, 1, 1) = 1 := by
  have hv : ![(1 : ℝ), 1, 1, 1] = fun _ => 1 := by
    funext i
    fin_cases i <;> rfl
  rw [glmScale, hv, Matrix.diagonal_one]

/-- Zero translation gives the identity matrix. -/
lemma glmTranslate_zero : glmTranslate (0, 0, 0) = 1 := by
  ext i j
  fin_cases i <;> fin_cases j <;>
    simp [glmTranslate, Matrix.one_apply]

/-- Zero rotation about X gives the identity matrix. -/
lemma glmRotateX_zero : glmRotateX 0 = 1 := by
  ext i j
  fin_cases i <;> fin_cases j <;>
    simp [glmRotateX, Matrix.one_apply, Matrix.vecHead, Matrix.vecTail,
      Function.comp]

/-- Zero rotation about Y gives the identity matrix. -/
lemma glmRotateY_zero : glmRotateY 0 = 1 := by
  ext i j
  fin_cases i <;> fin_cases j <;>
    simp [glmRotateY, Matrix.one_apply, Matrix.vecHead, Matrix.vecTail,
      Function.comp]

/-- Zero rotation about Z gives the identity matrix. -/
lemma glmRotateZ_zero : glmRotateZ 0 = 1 := by
  ext i j
  fin_cases i <;> fin_cases j <;>
    simp [glmRotateZ, Matrix.one_apply, Matrix.vecHead, Matrix.vecTail,
      Function.comp]

/-- C5: the model matrix built by `SetTransformations` is exactly
Translation × RotationZ × RotationY × RotationX × Scale (X innermost, then Y,
then Z), and at scale (1,1,1), rotation (0,0,0), position (0,0,0) it is the
identity matrix. -/
theorem SetTransformations_composition :
    (∀ (s : ℝ × ℝ × ℝ) (rx ry rz : ℝ) (p : ℝ × ℝ × ℝ),
      SetTransformations s rx ry rz p =
        glmTranslate p * glmRotateZ (radians rz) * glmRotateY (radians ry)
          * glmRotateX (radians rx) * glmScale s) ∧
    SetTransformations (1, 1, 1) 0 0 0 (0, 0, 0) = 1 := by
  refine ⟨fun s rx ry rz p => rfl, ?_⟩
  rw [SetTransformations, radians_zero, glmScale_one, glmTranslate_zero,
    glmRotateX_zero, glmRotateY_zero, glmRotateZ_zero]
  simp

end SceneMgr

namespace SceneMgr

/-- After a run of successful 3- or 4-channel loads, the registry holds the
initial entries followed by one `(ID, tag)` entry per load, in load order. -/
lemma loadAll_textures (ts : List TexEntry)
    (loads : List (ImageInfo × Nat × String))
    (h : ∀ l ∈ loads, l.1.channels = 3 ∨ l.1.channels = 4) :
    (loadAll ⟨ts⟩ loads).textures =
      ts ++ loads.map (fun l => ⟨l.2.1, l.2.2⟩) := by
  induction loads generalizing ts with
  | nil => simp [loadAll]
  | cons l rest ih =>
    have hl := h l (List.mem_cons_self _ _)
    have hrest : ∀ x ∈ rest, x.1.channels = 3 ∨ x.1.channels = 4 :=
      fun x hx => h x (List.mem_cons_of_mem _ hx)
    have hstep : (CreateGLTexture ⟨ts⟩ (some l.1) l.2.1 l.2.2).2 =
        ⟨ts ++ [⟨l.2.1, l.2.2⟩]⟩ := by
      rcases hl with h3 | h4
      · simp [CreateGLTexture, h3]
      · simp [CreateGLTexture, h4]
    simp only [loadAll, List.foldl_cons]
    rw [hstep]
    have hfold := ih (ts ++ [⟨l.2.1, l.2.2⟩]) hrest
    simp only [loadAll] at hfold
    rw [hfold]
    simp

/-- First-match scan on a duplicate-free registry: looking up the tag of the
`i`-th entry from running index `k` lands exactly on index `k + i`. -/
lemma findSlotLoop_load_index (es : List TexEntry) :
    (es.map TexEntry.tag).Nodup →
    ∀ (i : ℕ) (hi : i < es.length) (k : ℕ),
      findSlotLoop es (es.get ⟨i, hi⟩).tag k = (k : Int) + i := by
  induction es with
  | nil => intro _ i hi; simp at hi
  | cons e rest ih =>
    intro hnd i hi k
    rw [List.map_cons, List.nodup_cons] at hnd
    cases i with
    | zero => simp [findSlotLoop]
    | succ i =>
      have hi' : i < rest.length := by simpa using hi
      have hmem : (rest.get ⟨i, hi'⟩).tag ∈ rest.map TexEntry.tag :=
        List.mem_map_of_mem _ (rest.get_mem _ _)
      have hget : (e :: rest).get ⟨i + 1, hi⟩ = rest.get ⟨i, hi'⟩ :=
        List.get_cons_succ
      have hne : ¬ e.tag = ((e :: rest).get ⟨i + 1, hi⟩).tag := by
        rw [hget]
        intro hh
        exact hnd.1 (hh ▸ hmem)
      rw [findSlotLoop.eq_def]
      simp only [hne, beq_iff_eq, if_false]
      rw [hget, ih hnd.2 i hi' (k + 1)]
      push_cast
      ring

/-- C4: from an empty registry, a run of successful loads with distinct tags
puts each tag at the slot equal to its load-order index (`FindTextureSlot`
returns that index), and `BindGLTextures` issues exactly one bind per load,
pairing slot `i` with the `i`-th loaded texture handle, in load order. -/
theorem load_find_bind_order (loads : List (ImageInfo × Nat × String))
    (hch : ∀ l ∈ loads, l.1.channels = 3 ∨ l.1.channels = 4)
    (hnd : (loads.map fun l => l.2.2).Nodup) :
    (∀ p ∈ loads.enum,
        FindTextureSlot (loadAll ⟨[]⟩ loads) p.2.2.2 = (p.1 : Int)) ∧
    BindGLTextures (loadAll ⟨[]⟩ loads) = (loads.map fun l => l.2.1).enum ∧
    (BindGLTextures (loadAll ⟨[]⟩ loads)).length = loads.length := by
  have hts : (loadAll ⟨[]⟩ loads).textures =
      loads.map (fun l => ⟨l.2.1, l.2.2⟩) := by
    simpa using loadAll_textures [] loads hch
  have htags : ((loadAll ⟨[]⟩ loads).textures.map TexEntry.tag) =
      loads.map (fun l => l.2.2) := by
    rw [hts, List.map_map]
    rfl
  refine ⟨?_, ?_, ?_⟩
  · intro p hp
    rw [List.mem_enum_iff_getElem?] at hp
    have hlt : p.1 < loads.length := by
      by_contra hge
      rw [List.getElem?_eq_none (le_of_not_lt hge)] at hp
      cases hp
    have hget : loads.get ⟨p.1, hlt⟩ = p.2 := by
      rw [List.getElem?_eq_getElem hlt] at hp
      exact Option.some.inj hp
    have hlt' : p.1 < (loadAll ⟨[]⟩ loads).textures.length := by
      rw [hts, List.length_map]
      exact hlt
    have hnd' : ((loadAll ⟨[]⟩ loads).textures.map TexEntry.tag).Nodup := by
      rw [htags]
      exact hnd
    have hkey := findSlotLoop_load_index (loadAll ⟨[]⟩ loads).textures hnd'
      p.1 hlt' 0
    have htag : ((loadAll ⟨[]⟩ loads).textures.get ⟨p.1, hlt'⟩).tag =
        p.2.2.2 := by
      have h1 : (loadAll ⟨[]⟩ loads).textures[p.1]? =
          some ⟨p.2.2.1, p.2.2.2⟩ := by
        rw [hts, List.getElem?_map, hp]
        rfl
      rw [List.getElem?_eq_getElem hlt'] at h1
      have h2 := Option.some.inj h1
      have h3 : (loadAll ⟨[]⟩ loads).textures.get ⟨p.1, hlt'⟩ =
          (loadAll ⟨[]⟩ loads).textures[p.1] := rfl
      rw [h3, h2]
    rw [FindTextureSlot.eq_def]
    rw [← htag, hkey]
    omega
  · rw [BindGLTextures, hts]
    rw [List.enum_map]
    rw [List.enum_map]
    rw [List.map_map]
    rfl
  · rw [BindGLTextures]
    simp [hts]

/-- C4 witness: two successful loads (a 3-channel and a 4-channel image) with
distinct tags; the second tag resolves to slot 1, and the bind pass issues
exactly the two binds (0, 11) and (1, 22) in load order. -/
theorem load_find_bind_order_witness :
    FindTextureSlot
        (loadAll ⟨[]⟩ [(⟨4, 4, 3⟩, 11, "grass"), (⟨4, 4, 4⟩, 22, "sky")])
        "sky" = 1 ∧
    BindGLTextures
        (loadAll ⟨[]⟩ [(⟨4, 4, 3⟩, 11, "grass"), (⟨4, 4, 4⟩, 22, "sky")]) =
      [(0, 11), (1, 22)] ∧
    (BindGLTextures
        (loadAll ⟨[]⟩
          [(⟨4, 4, 3⟩, 11, "grass"), (⟨4, 4, 4⟩, 22, "sky")])).length = 2 := by
  have h := load_find_bind_order
    [(⟨4, 4, 3⟩, 11, "grass"), (⟨4, 4, 4⟩, 22, "sky")] (by decide) (by decide)
  refine ⟨h.1 (1, (⟨4, 4, 4⟩, 22, "sky")) (by decide), ?_, h.2.2⟩
  rw [h.2.1]
  rfl

end SceneMgr
